import Mathlib

/-!
Verification development for the gateway-addon IPC layer
(Transport, registration handshake, dispatcher, entity registries).

Shallow embedding conventions:
- JavaScript primitive values are modelled by `JSVal`; `undefined` is a
  value of its own (`JSVal.undef`), distinct from `null`.
- JavaScript `Map<string, V>` objects are modelled as association lists
  `List (String × V)`; `Map.set` updates in place or appends, `Map.get`
  of `undefined` always misses.
- Promise-returning entity operations whose implementations live outside
  this layer (adapter/notifier/handler unload, requestAction, ...) are
  modelled by an `Oracle` recording whether each promise fulfills or
  rejects; the continuation code attached with `.then`/`.catch` is
  translated directly.
- Side effects (socket sends, console logs, entity method calls, timer
  scheduling) are collected in an explicit output list.
-/

namespace GatewayAddon

/-- JavaScript primitive values as they occur in protocol payloads.
Numbers are modelled as rationals; string-to-number coercion of numeric
strings and the decimal rendering of non-integer numbers are not
modelled (neither is exercised by the properties proved below). -/
inductive JSVal where
  | undef : JSVal
  | null : JSVal
  | bool (b : Bool) : JSVal
  | num (q : Rat) : JSVal
  | str (s : String) : JSVal
deriving Repr, DecidableEq

/-- JavaScript truthiness of a `JSVal` (NaN strings aside). -/
def JSVal.truthy : JSVal → Bool
  | .undef => false
  | .null => false
  | .bool b => b
  | .num q => q != 0
  | .str s => s != ""

/-- JavaScript `ToNumber` on the modelled values; `none` stands for NaN
(strings are conservatively mapped to NaN, see module comment). -/
def JSVal.toNumber : JSVal → Option Rat
  | .undef => none
  | .null => some 0
  | .bool b => some (if b then 1 else 0)
  | .num q => some q
  | .str _ => none

/-- JavaScript `v < m` where `m` is a number; comparisons against NaN
are false. -/
def JSVal.ltNum (v : JSVal) (m : Rat) : Bool :=
  match v.toNumber with
  | some q => decide (q < m)
  | none => false

/-- JavaScript `v > m` where `m` is a number. -/
def JSVal.gtNum (v : JSVal) (m : Rat) : Bool :=
  match v.toNumber with
  | some q => decide (m < q)
  | none => false

/-- The template-literal rendering of a value, as used by the enum
membership check in `Property.setValue`. -/
def JSVal.templateString : JSVal → String
  | .undef => "undefined"
  | .null => "null"
  | .bool b => if b then "true" else "false"
  | .num q => if q.den = 1 then toString q.num else toString q
  | .str s => s

/-- Truthiness of an optional boolean field (`undefined` is falsy). -/
def truthyOpt (o : Option Bool) : Bool := o.getD false

/-- `Map.get(k)` on an association list; a missing key (or the JS value
`undefined` used as a key) misses.  Returns the stored pair so callers
can name both the key under which the entry sits and the entry. -/
def mapGet {α : Type} (m : List (String × α)) (k : Option String) : Option (String × α) :=
  match k with
  | none => none
  | some s => m.find? (fun p => p.fst == s)

/-- `Map.set(k, v)`: replace in place if the key exists, else append
(JS `Map` preserves insertion order). -/
def mapSet {α : Type} (m : List (String × α)) (k : String) (v : α) : List (String × α) :=
  if (m.find? (fun p => p.fst == k)).isSome then
    m.map (fun p => if p.fst == k then (k, v) else p)
  else
    m ++ [(k, v)]

/-- `Map.delete(k)`. -/
def mapDelete {α : Type} (m : List (String × α)) (k : String) : List (String × α) :=
  m.filter (fun p => p.fst != k)

/-! ## Property (src/property.ts)

The `Property` class.  The `device` backreference of the source is
modelled by carrying the owning device id and adapter id, which is all
`notifyPropertyChanged` / `sendPropertyChangedNotification` read from
it.  Optional descriptor fields are `Option`s (`none` = `undefined`). -/

structure Property where
  /-- Owning adapter id (via the `device` backreference). -/
  adapterId : String
  /-- Owning device id (via the `device` backreference). -/
  deviceId : String
  name : String
  /-- `PropertyValueType`: one of "boolean", "number", "integer", "string", ... -/
  type : String
  minimum : Option Rat := none
  maximum : Option Rat := none
  enumVals : Option (List JSVal) := none
  readOnly : Option Bool := none
  multipleOf : Option Rat := none
  fireAndForget : Bool := false
  /-- The cached value; starts out `undefined`. -/
  value : JSVal := .undef
deriving Repr, DecidableEq

/-- `Property.setCachedValue`: sets `this.value`, coercing to an actual
boolean when the declared type is boolean. -/
def Property.setCachedValue (p : Property) (value : JSVal) : Property :=
  if p.type == "boolean" then
    { p with value := .bool value.truthy }
  else
    { p with value := value }

/-- `Property.isFireAndForget`. -/
def Property.isFireAndForget (p : Property) : Bool := p.fireAndForget

/-- The `multipleOf` rejection test of `Property.setValue`:
`value / m - Math.round(value / m) !== 0`.  `Math.round` is `⌊x + 1/2⌋`,
which Mathlib's `round` computes; NaN operands and a zero divisor make
the JavaScript expression NaN, which compares `!== 0` as true. -/
def multipleOfFails (v : JSVal) (m : Rat) : Bool :=
  match v.toNumber with
  | none => true
  | some q => if m = 0 then true else decide (q / m - ((round (q / m) : Int) : Rat) ≠ 0)

/-- The `enum` rejection test of `Property.setValue`:
`this.enum.length > 0 && !this.enum.includes(`${value}`)`; `includes`
uses strict equality, so only string entries can match the template
rendering of the value. -/
def enumFails (l : List JSVal) (v : JSVal) : Bool :=
  decide (0 < l.length) && !(l.contains (.str v.templateString))

/-! ## Protocol message types

The numeric constants live in the external schema catalogue (one
document per type, each declaring its own constant integer value); the
catalogue is a collaborator and is not part of the repository sources.
Modelled from the spec: `messageType` is a closed integer enumeration;
only the distinctness of the constants is relied on below, the concrete
numerals are arbitrary. -/

namespace MessageType

abbrev PLUGIN_REGISTER_REQUEST : Nat := 0
abbrev PLUGIN_REGISTER_RESPONSE : Nat := 1
abbrev PLUGIN_UNLOAD_REQUEST : Nat := 2
abbrev PLUGIN_UNLOAD_RESPONSE : Nat := 3
abbrev PLUGIN_ERROR_NOTIFICATION : Nat := 4
abbrev ADAPTER_ADDED_NOTIFICATION : Nat := 5
abbrev ADAPTER_CANCEL_PAIRING_COMMAND : Nat := 6
abbrev ADAPTER_CANCEL_REMOVE_DEVICE_COMMAND : Nat := 7
abbrev ADAPTER_PAIRING_PROMPT_NOTIFICATION : Nat := 8
abbrev ADAPTER_REMOVE_DEVICE_REQUEST : Nat := 9
abbrev ADAPTER_REMOVE_DEVICE_RESPONSE : Nat := 10
abbrev ADAPTER_START_PAIRING_COMMAND : Nat := 11
abbrev ADAPTER_UNLOAD_REQUEST : Nat := 12
abbrev ADAPTER_UNLOAD_RESPONSE : Nat := 13
abbrev ADAPTER_UNPAIRING_PROMPT_NOTIFICATION : Nat := 14
abbrev API_HANDLER_ADDED_NOTIFICATION : Nat := 15
abbrev API_HANDLER_API_REQUEST : Nat := 16
abbrev API_HANDLER_API_RESPONSE : Nat := 17
abbrev API_HANDLER_UNLOAD_REQUEST : Nat := 18
abbrev API_HANDLER_UNLOAD_RESPONSE : Nat := 19
abbrev DEVICE_ACTION_STATUS_NOTIFICATION : Nat := 20
abbrev DEVICE_ADDED_NOTIFICATION : Nat := 21
abbrev DEVICE_CONNECTED_STATE_NOTIFICATION : Nat := 22
abbrev DEVICE_DEBUG_COMMAND : Nat := 23
abbrev DEVICE_EVENT_NOTIFICATION : Nat := 24
abbrev DEVICE_PROPERTY_CHANGED_NOTIFICATION : Nat := 25
abbrev DEVICE_REMOVE_ACTION_REQUEST : Nat := 26
abbrev DEVICE_REMOVE_ACTION_RESPONSE : Nat := 27
abbrev DEVICE_REQUEST_ACTION_REQUEST : Nat := 28
abbrev DEVICE_REQUEST_ACTION_RESPONSE : Nat := 29
abbrev DEVICE_SAVED_NOTIFICATION : Nat := 30
abbrev DEVICE_SET_CREDENTIALS_REQUEST : Nat := 31
abbrev DEVICE_SET_CREDENTIALS_RESPONSE : Nat := 32
abbrev DEVICE_SET_PIN_REQUEST : Nat := 33
abbrev DEVICE_SET_PIN_RESPONSE : Nat := 34
abbrev DEVICE_SET_PROPERTY_COMMAND : Nat := 35
abbrev MOCK_ADAPTER_ADD_DEVICE_REQUEST : Nat := 36
abbrev MOCK_ADAPTER_ADD_DEVICE_RESPONSE : Nat := 37
abbrev MOCK_ADAPTER_CLEAR_STATE_REQUEST : Nat := 38
abbrev MOCK_ADAPTER_CLEAR_STATE_RESPONSE : Nat := 39
abbrev MOCK_ADAPTER_PAIR_DEVICE_COMMAND : Nat := 40
abbrev MOCK_ADAPTER_REMOVE_DEVICE_REQUEST : Nat := 41
abbrev MOCK_ADAPTER_REMOVE_DEVICE_RESPONSE : Nat := 42
abbrev MOCK_ADAPTER_UNPAIR_DEVICE_COMMAND : Nat := 43
abbrev NOTIFIER_ADDED_NOTIFICATION : Nat := 44
abbrev NOTIFIER_UNLOAD_REQUEST : Nat := 45
abbrev NOTIFIER_UNLOAD_RESPONSE : Nat := 46
abbrev OUTLET_ADDED_NOTIFICATION : Nat := 47
abbrev OUTLET_NOTIFY_REQUEST : Nat := 48
abbrev OUTLET_NOTIFY_RESPONSE : Nat := 49
abbrev OUTLET_REMOVED_NOTIFICATION : Nat := 50

end MessageType

/-! ## Transport (src/ipc.ts, `IpcSocket.onData`, third revision)

`onData` parses the frame, consults the per-messageType validator
catalogue, logs advisory diagnostics and hands every successfully
parsed message to the dispatch callback. -/

/-- A received frame: either the body fails `JSON.parse` or it parses
to a message whose `messageType` field may be absent. -/
structure TransportMsg where
  messageType : Option Nat
  /-- The remainder of the parsed JSON body, opaque to the transport. -/
  body : String := ""
deriving Repr, DecidableEq

inductive Frame where
  | invalid (raw : String) : Frame
  | valid (msg : TransportMsg) : Frame
deriving Repr, DecidableEq

inductive TransportLog where
  | parseError : TransportLog
  | validationError : TransportLog
  | unknownMessageType (t : Nat) : TransportLog
  | noMessageType : TransportLog
deriving Repr, DecidableEq

structure OnDataResult where
  logs : List TransportLog
  /-- The arguments of the calls made to the dispatch callback `onMsg`. -/
  dispatched : List TransportMsg
deriving Repr, DecidableEq

/-- `IpcSocket.onData`.  `catalogue` is the set of messageType keys for
which a validator was built at construction; `validatorOk t` is the
outcome of running the external Ajv validator for type `t` on this
message. -/
def IpcSocket.onData (catalogue : List Nat) (validatorOk : Nat → Bool)
    (frame : Frame) : OnDataResult :=
  match frame with
  | .invalid _ => { logs := [.parseError], dispatched := [] }
  | .valid msg =>
    let logs : List TransportLog :=
      match msg.messageType with
      | some t =>
        if t ∈ catalogue then
          if validatorOk t then [] else [.validationError]
        else
          [.unknownMessageType t]
      | none => [.noMessageType]
    { logs := logs, dispatched := [msg] }

/-! ## Dispatcher data model (src/ipc.ts, `AddonManagerProxy`) -/

/-- An outlet owned by a notifier. -/
structure Outlet where
  id : String
deriving Repr, DecidableEq

/-- A device owned by an adapter; only the members the dispatcher
touches are modelled (`getId`, `findProperty` via the property map). -/
structure Device where
  id : String
  properties : List (String × Property) := []
deriving Repr, DecidableEq

/-- `Device.findProperty(propertyName)`. -/
def Device.findProperty (d : Device) (propertyName : Option String) :
    Option (String × Property) :=
  mapGet d.properties propertyName

/-- An adapter; `getId`/`getName`/`getPackageName` and the device map. -/
structure Adapter where
  id : String
  name : String
  packageName : String
  devices : List (String × Device) := []
deriving Repr, DecidableEq

/-- `Adapter.getDevice(deviceId)`. -/
def Adapter.getDevice (a : Adapter) (deviceId : Option String) :
    Option (String × Device) :=
  mapGet a.devices deviceId

structure Notifier where
  id : String
  name : String
  packageName : String
  outlets : List (String × Outlet) := []
deriving Repr, DecidableEq

/-- `Notifier.getOutlet(outletId)`. -/
def Notifier.getOutlet (n : Notifier) (outletId : Option String) :
    Option (String × Outlet) :=
  mapGet n.outlets outletId

structure APIHandler where
  packageName : String
deriving Repr, DecidableEq

/-- An `APIResponse` as synthesized or produced by a handler. -/
structure APIResponse where
  status : Nat
  contentType : String
  content : String
deriving Repr, DecidableEq

/-- The outbound notifications the dispatcher sends through
`pluginClient.sendNotification`; each constructor carries the
messageType-specific payload fields of the source call site
(`sendNotification` additionally injects the pluginId, which is
identical on every send and not modelled). -/
inductive Notification where
  | adapterAdded (adapterId name packageName : String)
  | notifierAdded (notifierId name packageName : String)
  | apiHandlerAdded (packageName : String)
  | apiHandlerUnloadResponse (packageName : String)
  | apiHandlerApiResponse (packageName : String) (messageId : Option Nat)
      (response : APIResponse)
  | notifierUnloadResponse (notifierId : String)
  | outletNotifyResponse (notifierId outletId : String) (messageId : Option Nat)
      (success : Bool)
  | adapterUnloadResponse (adapterId : String)
  | mockAdapterClearStateResponse (adapterId : String)
  | mockAdapterAddDeviceResponse (adapterId : String) (deviceId : Option String)
      (success : Bool) (error : Option String)
  | mockAdapterRemoveDeviceResponse (adapterId : String) (deviceId : Option String)
      (success : Bool) (error : Option String)
  | devicePropertyChanged (adapterId deviceId : String) (property : Property)
  | deviceRequestActionResponse (adapterId deviceId : String)
      (actionName actionId : Option String) (success : Bool)
  | deviceRemoveActionResponse (adapterId deviceId : String)
      (actionName actionId : Option String) (messageId : Option Nat) (success : Bool)
  | deviceSetPinResponse (adapterId : String) (messageId : Option Nat)
      (success : Bool) (device : Option Device) (deviceId : Option String)
  | deviceSetCredentialsResponse (adapterId : String) (messageId : Option Nat)
      (success : Bool) (device : Option Device) (deviceId : Option String)
  | pluginUnloadResponse
deriving Repr, DecidableEq

/-- Console diagnostics emitted by the dispatcher, by call site. -/
inductive LogTag where
  | unrecognizedHandler
  | unrecognizedNotifier
  | noSuchOutlet
  | failedToNotifyOutlet
  | unrecognizedAdapter
  | noSuchDevice
  | unknownProperty
  | failedToSetProperty
  | failedToRequestAction
  | failedToRemoveAction
  | failedToSetPin
  | failedToSetCredentials
  | failedApiRequest
  | unrecognizedMsg
deriving Repr, DecidableEq

/-- Synchronous calls into entity implementations that carry no reply
of their own. -/
inductive EntityCall where
  | startPairing (adapterId : String) (timeout : Option Nat)
  | cancelPairing (adapterId : String)
  | pairDevice (adapterId : String) (deviceId : Option String)
  | unpairDevice (adapterId : String) (deviceId : Option String)
  | handleDeviceSaved (adapterId : String) (deviceId : Option String)
  | removeThing (adapterId deviceId : String)
  | cancelRemoveThing (adapterId deviceId : String)
  | debugCmd (adapterId deviceId : String) (cmd : Option String)
  | unloadHook
deriving Repr, DecidableEq

/-- One observable effect of the dispatcher. -/
inductive Output where
  | notify (n : Notification)
  | logError (t : LogTag)
  | logWarn (t : LogTag)
  | call (c : EntityCall)
  /-- `setTimeout(() => pluginClient.unload(), delayMs)`. -/
  | scheduleClose (delayMs : Nat)
deriving Repr, DecidableEq

/-- `AddonManagerProxy.sendPropertyChangedNotification(property)`:
payload fields are read off the property's device backreference. -/
def sendPropertyChangedNotification (p : Property) : Output :=
  .notify (.devicePropertyChanged p.adapterId p.deviceId p)

/-- `Property.setCachedValueAndNotify`: updates the cache and, when the
strict-inequality comparison of old and new value detects a change,
notifies the device, which forwards to the dispatcher's
property-changed notification.  Returns the updated property, the
`hasChanged` result and the emitted outputs. -/
def Property.setCachedValueAndNotify (p : Property) (value : JSVal) :
    Property × Bool × List Output :=
  let oldValue := p.value
  let p2 := p.setCachedValue value
  let hasChanged := oldValue != p2.value
  (p2, hasChanged,
   if hasChanged then [sendPropertyChangedNotification p2] else [])

/-- `Property.setValue`: the base-class implementation.  The promise
executor runs synchronously, so the result is an `Except`: `error` is
the rejection reason, `ok` carries the updated property and the outputs
produced by the cache-and-notify step. -/
def Property.setValue (p : Property) (value : JSVal) :
    Except String (Property × List Output) :=
  if truthyOpt p.readOnly then
    .error "Read-only property"
  else if (match p.minimum with
           | some m => value.ltNum m
           | none => false) then
    .error "Value less than minimum"
  else if (match p.maximum with
           | some m => value.gtNum m
           | none => false) then
    .error "Value greater than maximum"
  else if (match p.multipleOf with
           | some m => multipleOfFails value m
           | none => false) then
    .error "Value is not a multiple of"
  else if (match p.enumVals with
           | some l => enumFails l value
           | none => false) then
    .error "Invalid enum value"
  else
    let r := p.setCachedValueAndNotify value
    .ok (r.1, r.2.2)

/-! ## Inbound messages -/

/-- The `data` object of an inbound message.  Fields the dispatcher
reads are modelled; `none` (resp. `.undef`) stands for an absent
property, matching the `hasOwnProperty` / `Map.get(undefined)`
behaviour of the source. -/
structure MessageData where
  pluginId : Option String := none
  adapterId : Option String := none
  deviceId : Option String := none
  notifierId : Option String := none
  outletId : Option String := none
  packageName : Option String := none
  propertyName : Option String := none
  propertyValue : JSVal := .undef
  actionName : Option String := none
  actionId : Option String := none
  messageId : Option Nat := none
  timeout : Option Nat := none
  cmd : Option String := none
  title : Option String := none
  message : Option String := none
  level : Option Nat := none
  gatewayVersion : Option String := none
  userProfile : Option JSVal := none
  preferences : Option JSVal := none
deriving Repr, DecidableEq

/-- An inbound protocol message. -/
structure Message where
  messageType : Nat
  data : MessageData := {}
deriving Repr, DecidableEq

/-! ## Dispatcher state and entity-operation outcomes -/

/-- `AddonManagerProxy` state: the three registries plus the fields the
unload sequence reads. -/
structure ProxyState where
  adapters : List (String × Adapter) := []
  notifiers : List (String × Notifier) := []
  apiHandlers : List (String × APIHandler) := []
  /-- Whether an `onUnload` hook has been registered. -/
  onUnload : Bool := false
  /-- `pluginClient.ipcProtocol` (set externally; "inproc" selects the
  shared-memory/test mode). -/
  ipcProtocol : String := ""
deriving Repr, DecidableEq

/-- Settlement outcomes of the promise-returning entity operations the
dispatcher invokes; the implementations live in the entity classes (and
their derived classes), outside this layer.  `true` / `.ok` means the
promise fulfills, `false` / `.error` that it rejects. -/
structure Oracle where
  apiHandlerUnload : Bool := true
  handleRequest : Except String APIResponse := .ok ⟨200, "text/plain", ""⟩
  notifierUnload : Bool := true
  outletNotify : Bool := true
  adapterUnload : Bool := true
  clearState : Bool := true
  /-- `addDevice` fulfills with the created device (its id is used in
  the response) or rejects with an error. -/
  addDevice : Except String String := .ok ""
  removeDevice : Except String String := .ok ""
  requestAction : Bool := true
  removeAction : Bool := true
  setPin : Bool := true
  setCredentials : Bool := true
deriving Repr

/-! ## Registration calls and the unload sequence -/

/-- `AddonManagerProxy.addAdapter`. -/
def AddonManagerProxy.addAdapter (st : ProxyState) (adapter : Adapter) :
    ProxyState × List Output :=
  ({ st with adapters := mapSet st.adapters adapter.id adapter },
   [.notify (.adapterAdded adapter.id adapter.name adapter.packageName)])

/-- `AddonManagerProxy.addNotifier`. -/
def AddonManagerProxy.addNotifier (st : ProxyState) (notifier : Notifier) :
    ProxyState × List Output :=
  ({ st with notifiers := mapSet st.notifiers notifier.id notifier },
   [.notify (.notifierAdded notifier.id notifier.name notifier.packageName)])

/-- `AddonManagerProxy.addAPIHandler`. -/
def AddonManagerProxy.addAPIHandler (st : ProxyState) (handler : APIHandler) :
    ProxyState × List Output :=
  ({ st with apiHandlers := mapSet st.apiHandlers handler.packageName handler },
   [.notify (.apiHandlerAdded handler.packageName)])

/-- The in-place mutation of a property found through the
adapter/device/property maps: the JS objects are shared, so updating
the `Property` updates the entry held by its device, which is held by
its adapter, which is held by the registry. -/
def writeBackProperty (st : ProxyState) (aid : String) (adapter : Adapter)
    (did : String) (device : Device) (pname : String) (p2 : Property) :
    ProxyState :=
  let device2 : Device :=
    { device with properties := mapSet device.properties pname p2 }
  let adapter2 : Adapter :=
    { adapter with devices := mapSet adapter.devices did device2 }
  { st with adapters := mapSet st.adapters aid adapter2 }

/-- `AddonManagerProxy.unloadPlugin`: in `inproc` mode the registered
unload hook (if any) is invoked synchronously; otherwise the transport
close is scheduled on a 500 ms timer.  In both cases exactly one
`PLUGIN_UNLOAD_RESPONSE` is then sent. -/
def AddonManagerProxy.unloadPlugin (ipcProtocol : String) (onUnload : Bool) :
    List Output :=
  (if ipcProtocol == "inproc" then
     if onUnload then [Output.call .unloadHook] else []
   else
     [Output.scheduleClose 500])
  ++ [Output.notify .pluginUnloadResponse]

/-! ## Inbound routing (src/ipc.ts, `AddonManagerProxy.onMsg`)

The routing algorithm, translated case by case: the global switch,
then the notifier-scoped section (guarded by the presence of a
`notifierId` field), then the adapter-scoped switch, then the
device-scoped switch with its default case.  Registry deletions happen
inside the `.then` continuation of the respective unload promise; a
rejected unload promise has no `.catch` handler, so nothing happens. -/

/-- The device-scoped switch of `AddonManagerProxy.onMsg` ("All
messages from here on are assumed to require a valid deviceId"). -/
def AddonManagerProxy.onMsgDevice (st : ProxyState) (o : Oracle) (msg : Message)
    (adapterId : String) (adapter : Adapter) (deviceId : String) (device : Device) :
    ProxyState × List Output :=
  if msg.messageType = MessageType.ADAPTER_REMOVE_DEVICE_REQUEST then
    (st, [.call (.removeThing adapterId deviceId)])
  else if msg.messageType = MessageType.ADAPTER_CANCEL_REMOVE_DEVICE_COMMAND then
    (st, [.call (.cancelRemoveThing adapterId deviceId)])
  else if msg.messageType = MessageType.DEVICE_SET_PROPERTY_COMMAND then
    match device.findProperty msg.data.propertyName with
    | none => (st, [.logError .unknownProperty])
    | some (propertyName, property) =>
      match property.setValue msg.data.propertyValue with
      | .ok (p2, outs) =>
        -- the property object is mutated in place; write the update
        -- back through the maps that hold it
        let st2 :=
          writeBackProperty st adapterId adapter deviceId device
            propertyName p2
        if p2.isFireAndForget then
          -- no propertyChanged notification will occur naturally, so
          -- fake one
          (st2, outs ++ [sendPropertyChangedNotification p2])
        else
          (st2, outs)
      | .error _err =>
        -- the gateway still expects a reply: report the error and send
        -- whatever the current value is
        (st, [.logError .failedToSetProperty,
              sendPropertyChangedNotification property])
  else if msg.messageType = MessageType.DEVICE_REQUEST_ACTION_REQUEST then
    if o.requestAction then
      (st, [.notify (.deviceRequestActionResponse adapter.id deviceId
              msg.data.actionName msg.data.actionId true)])
    else
      (st, [.logError .failedToRequestAction,
            .notify (.deviceRequestActionResponse adapter.id deviceId
              msg.data.actionName msg.data.actionId false)])
  else if msg.messageType = MessageType.DEVICE_REMOVE_ACTION_REQUEST then
    if o.removeAction then
      (st, [.notify (.deviceRemoveActionResponse adapter.id deviceId
              msg.data.actionName msg.data.actionId msg.data.messageId true)])
    else
      (st, [.logError .failedToRemoveAction,
            .notify (.deviceRemoveActionResponse adapter.id deviceId
              msg.data.actionName msg.data.actionId msg.data.messageId false)])
  else if msg.messageType = MessageType.DEVICE_SET_PIN_REQUEST then
    if o.setPin then
      (st, [.notify (.deviceSetPinResponse adapter.id msg.data.messageId
              true (some device) none)])
    else
      (st, [.logError .failedToSetPin,
            .notify (.deviceSetPinResponse adapter.id msg.data.messageId
              false none (some deviceId))])
  else if msg.messageType = MessageType.DEVICE_SET_CREDENTIALS_REQUEST then
    if o.setCredentials then
      (st, [.notify (.deviceSetCredentialsResponse adapter.id
              msg.data.messageId true (some device) none)])
    else
      (st, [.logError .failedToSetCredentials,
            .notify (.deviceSetCredentialsResponse adapter.id
              msg.data.messageId false none (some deviceId))])
  else if msg.messageType = MessageType.DEVICE_DEBUG_COMMAND then
    (st, [.call (.debugCmd adapterId deviceId msg.data.cmd)])
  else
    (st, [.logWarn .unrecognizedMsg])

/-- The adapter-scoped switch of `AddonManagerProxy.onMsg` ("The next
switch covers adapter messages, i.e. ones that do not need a device
object"), falling through to the device lookup and the device-scoped
switch. -/
def AddonManagerProxy.onMsgAdapter (st : ProxyState) (o : Oracle) (msg : Message)
    (adapterId : String) (adapter : Adapter) : ProxyState × List Output :=
  if msg.messageType = MessageType.ADAPTER_START_PAIRING_COMMAND then
    (st, [.call (.startPairing adapterId msg.data.timeout)])
  else if msg.messageType = MessageType.ADAPTER_CANCEL_PAIRING_COMMAND then
    (st, [.call (.cancelPairing adapterId)])
  else if msg.messageType = MessageType.ADAPTER_UNLOAD_REQUEST then
    if o.adapterUnload then
      ({ st with adapters := mapDelete st.adapters adapterId },
       [.notify (.adapterUnloadResponse adapter.id)])
    else
      (st, [])
  else if msg.messageType = MessageType.MOCK_ADAPTER_CLEAR_STATE_REQUEST then
    if o.clearState then
      (st, [.notify (.mockAdapterClearStateResponse adapter.id)])
    else
      (st, [])
  else if msg.messageType = MessageType.MOCK_ADAPTER_ADD_DEVICE_REQUEST then
    match o.addDevice with
    | .ok deviceId =>
      (st, [.notify (.mockAdapterAddDeviceResponse adapter.id (some deviceId)
              true none)])
    | .error err =>
      (st, [.notify (.mockAdapterAddDeviceResponse adapter.id none
              false (some err))])
  else if msg.messageType = MessageType.MOCK_ADAPTER_REMOVE_DEVICE_REQUEST then
    match o.removeDevice with
    | .ok deviceId =>
      (st, [.notify (.mockAdapterRemoveDeviceResponse adapter.id (some deviceId)
              true none)])
    | .error err =>
      (st, [.notify (.mockAdapterRemoveDeviceResponse adapter.id none
              false (some err))])
  else if msg.messageType = MessageType.MOCK_ADAPTER_PAIR_DEVICE_COMMAND then
    (st, [.call (.pairDevice adapterId msg.data.deviceId)])
  else if msg.messageType = MessageType.MOCK_ADAPTER_UNPAIR_DEVICE_COMMAND then
    (st, [.call (.unpairDevice adapterId msg.data.deviceId)])
  else if msg.messageType = MessageType.DEVICE_SAVED_NOTIFICATION then
    (st, [.call (.handleDeviceSaved adapterId msg.data.deviceId)])
  else
    match adapter.getDevice msg.data.deviceId with
    | none => (st, [.logError .noSuchDevice])
    | some (deviceId, device) =>
      AddonManagerProxy.onMsgDevice st o msg adapterId adapter deviceId device

/-- The notifier-scoped switch of `AddonManagerProxy.onMsg` ("Next,
handle notifier messages"); its inner switch has no default case, so an
unmatched type falls through and returns silently. -/
def AddonManagerProxy.onMsgNotifier (st : ProxyState) (o : Oracle) (msg : Message)
    (notifierId : String) (notifier : Notifier) : ProxyState × List Output :=
  if msg.messageType = MessageType.NOTIFIER_UNLOAD_REQUEST then
    if o.notifierUnload then
      ({ st with notifiers := mapDelete st.notifiers notifierId },
       [.notify (.notifierUnloadResponse notifier.id)])
    else
      (st, [])
  else if msg.messageType = MessageType.OUTLET_NOTIFY_REQUEST then
    match notifier.getOutlet msg.data.outletId with
    | none => (st, [.logError .noSuchOutlet])
    | some (outletId, _outlet) =>
      if o.outletNotify then
        (st, [.notify (.outletNotifyResponse notifierId outletId
                msg.data.messageId true)])
      else
        (st, [.logError .failedToNotifyOutlet,
              .notify (.outletNotifyResponse notifierId outletId
                msg.data.messageId false)])
  else
    -- inner switch matches nothing: fall through and return
    (st, [])

def AddonManagerProxy.onMsg (st : ProxyState) (o : Oracle) (msg : Message) :
    ProxyState × List Output :=
  if msg.messageType = MessageType.PLUGIN_UNLOAD_REQUEST then
    (st, AddonManagerProxy.unloadPlugin st.ipcProtocol st.onUnload)
  else if msg.messageType = MessageType.API_HANDLER_UNLOAD_REQUEST then
    match mapGet st.apiHandlers msg.data.packageName with
    | none => (st, [.logError .unrecognizedHandler])
    | some (packageName, _handler) =>
      if o.apiHandlerUnload then
        ({ st with apiHandlers := mapDelete st.apiHandlers packageName },
         [.notify (.apiHandlerUnloadResponse packageName)])
      else
        (st, [])
  else if msg.messageType = MessageType.API_HANDLER_API_REQUEST then
    match mapGet st.apiHandlers msg.data.packageName with
    | none => (st, [.logError .unrecognizedHandler])
    | some (packageName, _handler) =>
      match o.handleRequest with
      | .ok response =>
        (st, [.notify (.apiHandlerApiResponse packageName msg.data.messageId response)])
      | .error err =>
        (st, [.logError .failedApiRequest,
              .notify (.apiHandlerApiResponse packageName msg.data.messageId
                ⟨500, "text/plain", err⟩)])
  else if msg.data.notifierId.isSome then
    match mapGet st.notifiers msg.data.notifierId with
    | none => (st, [.logError .unrecognizedNotifier])
    | some (notifierId, notifier) =>
      AddonManagerProxy.onMsgNotifier st o msg notifierId notifier
  else
    match mapGet st.adapters msg.data.adapterId with
    | none => (st, [.logError .unrecognizedAdapter])
    | some (adapterId, adapter) =>
      AddonManagerProxy.onMsgAdapter st o msg adapterId adapter

/-- The message types matched by some case of the routing algorithm. -/
def handledTypes : List Nat :=
  [MessageType.PLUGIN_UNLOAD_REQUEST,
   MessageType.API_HANDLER_UNLOAD_REQUEST,
   MessageType.API_HANDLER_API_REQUEST,
   MessageType.NOTIFIER_UNLOAD_REQUEST,
   MessageType.OUTLET_NOTIFY_REQUEST,
   MessageType.ADAPTER_START_PAIRING_COMMAND,
   MessageType.ADAPTER_CANCEL_PAIRING_COMMAND,
   MessageType.ADAPTER_UNLOAD_REQUEST,
   MessageType.MOCK_ADAPTER_CLEAR_STATE_REQUEST,
   MessageType.MOCK_ADAPTER_ADD_DEVICE_REQUEST,
   MessageType.MOCK_ADAPTER_REMOVE_DEVICE_REQUEST,
   MessageType.MOCK_ADAPTER_PAIR_DEVICE_COMMAND,
   MessageType.MOCK_ADAPTER_UNPAIR_DEVICE_COMMAND,
   MessageType.DEVICE_SAVED_NOTIFICATION,
   MessageType.ADAPTER_REMOVE_DEVICE_REQUEST,
   MessageType.ADAPTER_CANCEL_REMOVE_DEVICE_COMMAND,
   MessageType.DEVICE_SET_PROPERTY_COMMAND,
   MessageType.DEVICE_REQUEST_ACTION_REQUEST,
   MessageType.DEVICE_REMOVE_ACTION_REQUEST,
   MessageType.DEVICE_SET_PIN_REQUEST,
   MessageType.DEVICE_SET_CREDENTIALS_REQUEST,
   MessageType.DEVICE_DEBUG_COMMAND]

/-! ## Timing model for the unload sequence

The runtime is single-threaded and event-driven: a synchronous turn
executes atomically (modelled at instant 0) and a timer callback
scheduled with delay `d` during that turn runs after the whole turn, no
earlier than `d` milliseconds later.  `unloadTimeline` interprets the
output list of the unload sequence under that model. -/

inductive UnloadEvent where
  | unloadHook
  | response
  | closeTransport
deriving Repr, DecidableEq

/-- The synchronous events of the unload sequence. -/
def syncUnloadEvent : Output → Option UnloadEvent
  | .notify .pluginUnloadResponse => some .response
  | .call .unloadHook => some .unloadHook
  | _ => none

/-- Timestamped event sequence: synchronous events at instant 0 in
program order, then each scheduled close at its delay. -/
def unloadTimeline (outs : List Output) : List (Nat × UnloadEvent) :=
  (outs.filterMap syncUnloadEvent).map (fun e => (0, e)) ++
  outs.filterMap (fun out =>
    match out with
    | .scheduleClose d => some (d, UnloadEvent.closeTransport)
    | _ => none)

/-! ## Output counting helpers -/

/-- Whether an output is an outbound notification (a reply or
notification sent to the gateway). -/
def Output.isNotify : Output → Bool
  | .notify _ => true
  | _ => false

/-- Number of `DEVICE_PROPERTY_CHANGED_NOTIFICATION` sends in an output
list. -/
def countPropertyChanged (outs : List Output) : Nat :=
  outs.countP (fun out =>
    match out with
    | .notify (.devicePropertyChanged _ _ _) => true
    | _ => false)

/-- Number of `DEVICE_REQUEST_ACTION_RESPONSE` sends in an output
list. -/
def countRequestActionResponse (outs : List Output) : Nat :=
  outs.countP (fun out =>
    match out with
    | .notify (.deviceRequestActionResponse _ _ _ _ _) => true
    | _ => false)

/-- Number of `PLUGIN_UNLOAD_RESPONSE` sends in an output list. -/
def countPluginUnloadResponse (outs : List Output) : Nat :=
  outs.countP (fun out =>
    match out with
    | .notify .pluginUnloadResponse => true
    | _ => false)

/-- Whether an output list contains any log line (error or warning). -/
def hasLog (outs : List Output) : Bool :=
  outs.any (fun out =>
    match out with
    | .logError _ => true
    | .logWarn _ => true
    | _ => false)

/-- Whether an output list contains the unrecognized-message warning of
the routing algorithm's default case. -/
def hasUnrecognizedLog (outs : List Output) : Bool :=
  outs.any (fun out =>
    match out with
    | .logWarn .unrecognizedMsg => true
    | _ => false)

/-! ## Registration handshake (src/plugin-client.ts, `PluginClient`)

The `Deferred` correlation future is modelled by its diagnostic id
(`deferredReply`), together with the monotone id counter of the
`Deferred` module.  The `AddonManagerProxy` constructor captures the
session fields by reading the plugin client's getters. -/

/-- The session fields the `AddonManagerProxy` constructor captures
from the plugin client. -/
structure ProxySession where
  gatewayVersion : Option String
  userProfile : Option JSVal
  preferences : Option JSVal
deriving Repr, DecidableEq

/-- `PluginClient` state. -/
structure PCState where
  deferredReply : Option Nat := none
  /-- Next id the `Deferred` module would hand out. -/
  nextDeferredId : Nat := 1
  /-- Number of `IpcSocket` transports constructed so far. -/
  ipcSocketsCreated : Nat := 0
  gatewayVersion : Option String := none
  userProfile : Option JSVal := none
  preferences : Option JSVal := none
  addonManager : Option ProxySession := none
deriving Repr, DecidableEq

/-- The `AddonManagerProxy` constructor (src/ipc.ts lines 409-416): it
reads `getGatewayVersion()` and `getUserProfile()`, and assigns its
`preferences` field from `pluginClient.getUserProfile()` as well. -/
def AddonManagerProxy.new (pc : PCState) : ProxySession :=
  { gatewayVersion := pc.gatewayVersion
    userProfile := pc.userProfile
    preferences := pc.userProfile }

/-- Result of a `PluginClient.register` call. -/
structure RegisterResult where
  state : PCState
  /-- `console.error('Already waiting for registration reply')`. -/
  loggedAlreadyWaiting : Bool
  /-- Whether `new Deferred()` ran. -/
  createdDeferred : Bool
  /-- Whether `new IpcSocket(...)` ran. -/
  createdTransport : Bool
deriving Repr, DecidableEq

/-- `PluginClient.register(port)`: guarded against a still-pending
registration; otherwise creates the correlation future and the
client-role transport (the subsequent connect-then-send is outside the
synchronous call). -/
def PluginClient.register (st : PCState) : RegisterResult :=
  if st.deferredReply.isSome then
    { state := st
      loggedAlreadyWaiting := true
      createdDeferred := false
      createdTransport := false }
  else
    { state := { st with
        deferredReply := some st.nextDeferredId
        nextDeferredId := st.nextDeferredId + 1
        ipcSocketsCreated := st.ipcSocketsCreated + 1 }
      loggedAlreadyWaiting := false
      createdDeferred := true
      createdTransport := true }

/-- Result of a `PluginClient.onMsg` call. -/
structure PCOnMsgResult where
  state : PCState
  /-- Messages forwarded to `addonManager.onMsg`. -/
  forwarded : List Message
  /-- The session the pending future was resolved with, if it settled. -/
  resolvedWith : Option ProxySession
deriving Repr, DecidableEq

/-- `PluginClient.onMsg(msg)`: on `PLUGIN_REGISTER_RESPONSE` captures
the session fields, constructs the proxy and settles the pending
future; any other message is forwarded to the proxy when one exists and
silently discarded otherwise. -/
def PluginClient.onMsg (st : PCState) (msg : Message) : PCOnMsgResult :=
  if msg.messageType = MessageType.PLUGIN_REGISTER_RESPONSE then
    let st1 := { st with
      gatewayVersion := msg.data.gatewayVersion
      userProfile := msg.data.userProfile
      preferences := msg.data.preferences }
    let proxy := AddonManagerProxy.new st1
    let st2 := { st1 with addonManager := some proxy }
    match st2.deferredReply with
    | some _ =>
      { state := { st2 with deferredReply := none }
        forwarded := []
        resolvedWith := some proxy }
    | none =>
      { state := st2, forwarded := [], resolvedWith := none }
  else
    match st.addonManager with
    | some _ => { state := st, forwarded := [msg], resolvedWith := none }
    | none => { state := st, forwarded := [], resolvedWith := none }

/-! ## Helper lemmas about the map model -/

/-- A successful `mapGet` pins down the key it was asked for. -/
theorem mapGet_key {α : Type} {m : List (String × α)} {k : Option String}
    {s : String} {v : α} (h : mapGet m k = some (s, v)) : k = some s := by
  match k with
  | none => simp [mapGet] at h
  | some t =>
    have hp := List.find?_some h
    have : s = t := by simpa using hp
    rw [this]

/-- The entry-replacing map of `mapSet` does not move any key. -/
theorem replace_preserves_fst {α : Type} (k : String) (v : α) (x : String × α) :
    (if x.fst == k then (k, v) else x).fst = x.fst := by
  by_cases h : x.fst == k
  · have : x.fst = k := by simpa using h
    simp [h, this]
  · simp [h]

/-- After `mapSet m k v`, looking up `k` yields exactly `(k, v)`. -/
theorem mapGet_mapSet_self {α : Type} (m : List (String × α)) (k : String) (v : α) :
    mapGet (mapSet m k v) (some k) = some (k, v) := by
  simp only [mapGet, mapSet]
  by_cases hex : (m.find? (fun p => p.fst == k)).isSome
  · rw [if_pos hex, List.find?_map]
    have hp : ((fun p : String × α => p.fst == k) ∘
        (fun p => if p.fst == k then (k, v) else p)) =
        (fun p : String × α => p.fst == k) := by
      funext x
      simp only [Function.comp]
      rw [replace_preserves_fst]
    rw [hp]
    rcases ho : m.find? (fun p => p.fst == k) with _ | x
    · rw [ho] at hex; simp at hex
    · have hx := List.find?_some ho
      simp at hx
      rw [ho]
      simp [hx]
  · rw [if_neg hex, List.find?_append]
    have ho : m.find? (fun p => p.fst == k) = none := by
      rcases h2 : m.find? (fun p => p.fst == k) with _ | x
      · exact h2
      · rw [h2] at hex; simp at hex
    rw [ho]
    simp

/-- `mapSet` with a key that is already present neither adds nor
removes keys. -/
theorem mapGet_mapSet_isSome {α : Type} (m : List (String × α)) (k : String)
    (v : α) (hk : (mapGet m (some k)).isSome) (k2 : String) :
    (mapGet (mapSet m k v) (some k2)).isSome = (mapGet m (some k2)).isSome := by
  simp only [mapGet, mapSet] at *
  rw [if_pos hk, List.find?_map]
  have hp : ((fun p : String × α => p.fst == k2) ∘
      (fun p => if p.fst == k then (k, v) else p)) =
      (fun p : String × α => p.fst == k2) := by
    funext x
    simp only [Function.comp]
    rw [replace_preserves_fst]
  rw [hp]
  rcases ho : m.find? (fun p => p.fst == k2) with _ | x <;> simp [ho]

/-! ## Claim theorems -/

/-- Claim C1: for every received frame whose body parses as JSON, the
transport invokes the dispatch callback exactly once with the parsed
message — whether the messageType is absent, unknown to the catalogue,
or fails validation — and for a frame that does not parse as JSON the
callback is not invoked at all. -/
theorem C1_onData_dispatches_exactly_once :
    ∀ (catalogue : List Nat) (validatorOk : Nat → Bool),
      (∀ msg : TransportMsg,
        (IpcSocket.onData catalogue validatorOk (.valid msg)).dispatched = [msg]) ∧
      (∀ raw : String,
        (IpcSocket.onData catalogue validatorOk (.invalid raw)).dispatched = []) := by
  intro catalogue validatorOk
  exact ⟨fun msg => rfl, fun raw => rfl⟩

/-- Claim C4: a `register(port)` call made while a previous registration
is still awaiting its reply logs the error and returns without creating
a new correlation future or a new transport, leaving the state (and
with it the first pending future) untouched. -/
theorem C4_register_pending_guard (st : PCState) (d : Nat)
    (h : st.deferredReply = some d) :
    PluginClient.register st =
      { state := st
        loggedAlreadyWaiting := true
        createdDeferred := false
        createdTransport := false } := by
  simp [PluginClient.register, h]

theorem C4_register_pending_guard_witness :
    PluginClient.register { deferredReply := some 1 } =
      { state := { deferredReply := some 1 }
        loggedAlreadyWaiting := true
        createdDeferred := false
        createdTransport := false } :=
  C4_register_pending_guard { deferredReply := some 1 } 1 rfl

/-- Claim C10: before any `PLUGIN_REGISTER_RESPONSE` has been received
(no dispatcher exists yet), every inbound message of a different
messageType is silently discarded: nothing is forwarded, nothing is
resolved, and the handshake state does not change. -/
theorem C10_discard_before_registration (st : PCState) (msg : Message)
    (h1 : st.addonManager = none)
    (h2 : msg.messageType ≠ MessageType.PLUGIN_REGISTER_RESPONSE) :
    PluginClient.onMsg st msg =
      { state := st, forwarded := [], resolvedWith := none } := by
  simp [PluginClient.onMsg, h1, h2]

theorem C10_discard_before_registration_witness :
    PluginClient.onMsg {} { messageType := MessageType.DEVICE_SET_PROPERTY_COMMAND } =
      { state := {}, forwarded := [], resolvedWith := none } :=
  C10_discard_before_registration {}
    { messageType := MessageType.DEVICE_SET_PROPERTY_COMMAND } rfl (by decide)

/-- The `PLUGIN_REGISTER_RESPONSE` used to exhibit the preferences slip:
its payload carries distinct `userProfile` and `preferences` values. -/
def c5Msg : Message :=
  { messageType := MessageType.PLUGIN_REGISTER_RESPONSE
    data := { gatewayVersion := some "1.1.0"
              userProfile := some (.str "profile-data")
              preferences := some (.str "preferences-data") } }

/-- Claim C5 (evaluation at the failing input): the handshake records
the payload fields correctly, but the constructed dispatcher's
`preferences` session field is assigned from `getUserProfile()`
(src/ipc.ts line 414), so it carries the payload's `userProfile` value
instead of its `preferences` value.  The pending future settles with
that dispatcher. -/
theorem C5_preferences_bug_eval :
    (PluginClient.onMsg { deferredReply := some 1 } c5Msg).resolvedWith =
      some { gatewayVersion := some "1.1.0"
             userProfile := some (.str "profile-data")
             preferences := some (.str "profile-data") } ∧
    (PluginClient.onMsg { deferredReply := some 1 } c5Msg).state.preferences =
      some (.str "preferences-data") ∧
    c5Msg.data.preferences = some (.str "preferences-data") := by
  refine ⟨rfl, rfl, rfl⟩

/-- `setValue` on a read-only property rejects immediately, before
touching the cache. -/
theorem setValue_readOnly {p : Property} (h : p.readOnly = some true) (v : JSVal) :
    p.setValue v = .error "Read-only property" := by
  simp [Property.setValue, truthyOpt, h]

/-- `setValue` on a property with no numeric or enum constraints and a
falsy `readOnly` flag runs the cache-and-notify step. -/
theorem setValue_plain {p : Property} (v : JSVal)
    (hRO : truthyOpt p.readOnly = false)
    (hmin : p.minimum = none) (hmax : p.maximum = none)
    (hmul : p.multipleOf = none) (henum : p.enumVals = none) :
    p.setValue v =
      .ok ((p.setCachedValueAndNotify v).1, (p.setCachedValueAndNotify v).2.2) := by
  simp [Property.setValue, hRO, hmin, hmax, hmul, henum]

/-- Claim C2: a `DEVICE_SET_PROPERTY_COMMAND` that resolves to an
existing read-only property leaves the dispatcher state — in particular
the property's cached value — unchanged, and emits exactly one
property-changed notification (the fallback sent from the rejection
path of `setValue`). -/
theorem C2_readOnly_setProperty_fallback
    (st : ProxyState) (o : Oracle) (msg : Message)
    (aid : String) (adapter : Adapter) (did : String) (device : Device)
    (pname : String) (property : Property)
    (hmt : msg.messageType = MessageType.DEVICE_SET_PROPERTY_COMMAND)
    (hnid : msg.data.notifierId = none)
    (hA : mapGet st.adapters msg.data.adapterId = some (aid, adapter))
    (hD : adapter.getDevice msg.data.deviceId = some (did, device))
    (hP : device.findProperty msg.data.propertyName = some (pname, property))
    (hRO : property.readOnly = some true) :
    (AddonManagerProxy.onMsg st o msg).1 = st ∧
    countPropertyChanged (AddonManagerProxy.onMsg st o msg).2 = 1 := by
  have hsv := setValue_readOnly hRO msg.data.propertyValue
  have hres : AddonManagerProxy.onMsg st o msg =
      (st, [.logError .failedToSetProperty,
            sendPropertyChangedNotification property]) := by
    simp [AddonManagerProxy.onMsg, AddonManagerProxy.onMsgAdapter, AddonManagerProxy.onMsgDevice, AddonManagerProxy.onMsgNotifier, hmt, hnid, hA, hD, hP, hsv]
  rw [hres]
  exact ⟨rfl, rfl⟩

/-- Read-only fixture: boolean property "on" marked read-only, held by
device "D1" of adapter "A1". -/
def propRO : Property :=
  { adapterId := "A1", deviceId := "D1", name := "on", type := "boolean"
    readOnly := some true }

def devRO : Device := { id := "D1", properties := [("on", propRO)] }

def adpRO : Adapter :=
  { id := "A1", name := "Adapter One", packageName := "adapter-one"
    devices := [("D1", devRO)] }

def stRO : ProxyState := { adapters := [("A1", adpRO)] }

/-- The set-property command used in the witnesses. -/
def msgSetOn : Message :=
  { messageType := MessageType.DEVICE_SET_PROPERTY_COMMAND
    data := { adapterId := some "A1", deviceId := some "D1"
              propertyName := some "on", propertyValue := .num 1 } }

theorem C2_readOnly_setProperty_fallback_witness :
    (AddonManagerProxy.onMsg stRO {} msgSetOn).1 = stRO ∧
    countPropertyChanged (AddonManagerProxy.onMsg stRO {} msgSetOn).2 = 1 :=
  C2_readOnly_setProperty_fallback stRO {} msgSetOn "A1" adpRO "D1" devRO
    "on" propRO rfl rfl rfl rfl rfl rfl

/-- Claim C3: a `DEVICE_REQUEST_ACTION_REQUEST` that resolves to a
registered adapter and a known device produces exactly one
`DEVICE_REQUEST_ACTION_RESPONSE`, with `success` mirroring the outcome
of the device's `requestAction` promise, echoing the request's
actionId, actionName, adapterId and deviceId; the registry key
invariant `adapter.id = aid` is established by `addAdapter`. -/
theorem C3_requestAction_single_response
    (st : ProxyState) (o : Oracle) (msg : Message)
    (aid : String) (adapter : Adapter) (did : String) (device : Device)
    (hmt : msg.messageType = MessageType.DEVICE_REQUEST_ACTION_REQUEST)
    (hnid : msg.data.notifierId = none)
    (hA : mapGet st.adapters msg.data.adapterId = some (aid, adapter))
    (haid : adapter.id = aid)
    (hD : adapter.getDevice msg.data.deviceId = some (did, device)) :
    (AddonManagerProxy.onMsg st o msg).1 = st ∧
    countRequestActionResponse (AddonManagerProxy.onMsg st o msg).2 = 1 ∧
    (AddonManagerProxy.onMsg st o msg).2.filter Output.isNotify =
      [.notify (.deviceRequestActionResponse aid did
        msg.data.actionName msg.data.actionId o.requestAction)] ∧
    msg.data.adapterId = some aid ∧ msg.data.deviceId = some did := by
  have hkeyA : msg.data.adapterId = some aid := mapGet_key hA
  have hkeyD : msg.data.deviceId = some did := mapGet_key hD
  cases hor : o.requestAction
  · have hres : AddonManagerProxy.onMsg st o msg =
        (st, [.logError .failedToRequestAction,
              .notify (.deviceRequestActionResponse aid did
                msg.data.actionName msg.data.actionId false)]) := by
      simp [AddonManagerProxy.onMsg, AddonManagerProxy.onMsgAdapter, AddonManagerProxy.onMsgDevice, AddonManagerProxy.onMsgNotifier, hmt, hnid, hA, hD, hor, haid]
    rw [hres]
    refine ⟨rfl, rfl, ?_, hkeyA, hkeyD⟩
    rfl
  · have hres : AddonManagerProxy.onMsg st o msg =
        (st, [.notify (.deviceRequestActionResponse aid did
                msg.data.actionName msg.data.actionId true)]) := by
      simp [AddonManagerProxy.onMsg, AddonManagerProxy.onMsgAdapter, AddonManagerProxy.onMsgDevice, AddonManagerProxy.onMsgNotifier, hmt, hnid, hA, hD, hor, haid]
    rw [hres]
    refine ⟨rfl, rfl, ?_, hkeyA, hkeyD⟩
    rfl

/-- Fixture for the C3 witness: same shape as the read-only fixture but
with a writable property (unused by the request-action path). -/
def propOn : Property :=
  { adapterId := "A1", deviceId := "D1", name := "on", type := "boolean" }

def dev1 : Device := { id := "D1", properties := [("on", propOn)] }

def adp1 : Adapter :=
  { id := "A1", name := "Adapter One", packageName := "adapter-one"
    devices := [("D1", dev1)] }

def st1 : ProxyState := { adapters := [("A1", adp1)] }

def msgReqAction : Message :=
  { messageType := MessageType.DEVICE_REQUEST_ACTION_REQUEST
    data := { adapterId := some "A1", deviceId := some "D1"
              actionName := some "blink", actionId := some "act-7" } }

theorem C3_requestAction_single_response_witness :
    (AddonManagerProxy.onMsg st1 { requestAction := false } msgReqAction).1 = st1 ∧
    countRequestActionResponse
      (AddonManagerProxy.onMsg st1 { requestAction := false } msgReqAction).2 = 1 ∧
    (AddonManagerProxy.onMsg st1 { requestAction := false } msgReqAction).2.filter
        Output.isNotify =
      [.notify (.deviceRequestActionResponse "A1" "D1"
        (some "blink") (some "act-7") false)] ∧
    msgReqAction.data.adapterId = some "A1" ∧
    msgReqAction.data.deviceId = some "D1" :=
  C3_requestAction_single_response st1 { requestAction := false } msgReqAction
    "A1" adp1 "D1" dev1 rfl rfl rfl rfl rfl

/-- Claim C9: a `DEVICE_SET_PROPERTY_COMMAND` with `propertyValue: 1`
against a plain boolean property (not read-only, not fire-and-forget,
no numeric or enum constraints) fulfills `setValue`; the cached value
afterwards is the boolean `true` (truthy coercion of the input) and the
handler emits exactly the one natural changed-notification produced by
`setCachedValueAndNotify` — no synthesized notification of its own. -/
theorem C9_boolean_coercion_set_property
    (st : ProxyState) (o : Oracle) (msg : Message)
    (aid : String) (adapter : Adapter) (did : String) (device : Device)
    (pname : String) (property : Property)
    (hmt : msg.messageType = MessageType.DEVICE_SET_PROPERTY_COMMAND)
    (hnid : msg.data.notifierId = none)
    (hA : mapGet st.adapters msg.data.adapterId = some (aid, adapter))
    (hD : adapter.getDevice msg.data.deviceId = some (did, device))
    (hP : device.findProperty msg.data.propertyName = some (pname, property))
    (hv : msg.data.propertyValue = .num 1)
    (htype : property.type = "boolean")
    (hRO : truthyOpt property.readOnly = false)
    (hFF : property.fireAndForget = false)
    (hmin : property.minimum = none) (hmax : property.maximum = none)
    (hmul : property.multipleOf = none) (henum : property.enumVals = none)
    (hold : property.value ≠ .bool true) :
    (∃ a2, mapGet (AddonManagerProxy.onMsg st o msg).1.adapters (some aid) =
        some (aid, a2) ∧
      ∃ d2, mapGet a2.devices (some did) = some (did, d2) ∧
        mapGet d2.properties (some pname) =
          some (pname, { property with value := .bool true })) ∧
    (AddonManagerProxy.onMsg st o msg).2 =
      [sendPropertyChangedNotification { property with value := .bool true }] ∧
    countPropertyChanged (AddonManagerProxy.onMsg st o msg).2 = 1 := by
  have hp2 : property.setCachedValue (.num 1) = { property with value := .bool true } := by
    simp [Property.setCachedValue, htype, JSVal.truthy]
  have hchanged : (property.value != JSVal.bool true) = true := by
    simp [hold]
  have hcn : property.setCachedValueAndNotify (.num 1) =
      ({ property with value := .bool true }, true,
       [sendPropertyChangedNotification { property with value := .bool true }]) := by
    simp [Property.setCachedValueAndNotify, hp2]
    exact hold
  have hsv : property.setValue (.num 1) =
      .ok ({ property with value := .bool true },
           [sendPropertyChangedNotification { property with value := .bool true }]) := by
    rw [setValue_plain (.num 1) hRO hmin hmax hmul henum, hcn]
  have hres : AddonManagerProxy.onMsg st o msg =
      (writeBackProperty st aid adapter did device pname
         { property with value := .bool true },
       [sendPropertyChangedNotification { property with value := .bool true }]) := by
    simp [AddonManagerProxy.onMsg, AddonManagerProxy.onMsgAdapter, AddonManagerProxy.onMsgDevice, AddonManagerProxy.onMsgNotifier, hmt, hnid, hA, hD, hP, hv, hsv,
          Property.isFireAndForget, hFF]
  rw [hres]
  refine ⟨?_, rfl, rfl⟩
  simp only [writeBackProperty]
  exact ⟨_, mapGet_mapSet_self _ _ _, _, mapGet_mapSet_self _ _ _,
         mapGet_mapSet_self _ _ _⟩

theorem C9_boolean_coercion_set_property_witness :
    (∃ a2, mapGet (AddonManagerProxy.onMsg st1 {} msgSetOn).1.adapters (some "A1") =
        some ("A1", a2) ∧
      ∃ d2, mapGet a2.devices (some "D1") = some ("D1", d2) ∧
        mapGet d2.properties (some "on") =
          some ("on", { propOn with value := .bool true })) ∧
    (AddonManagerProxy.onMsg st1 {} msgSetOn).2 =
      [sendPropertyChangedNotification { propOn with value := .bool true }] ∧
    countPropertyChanged (AddonManagerProxy.onMsg st1 {} msgSetOn).2 = 1 :=
  C9_boolean_coercion_set_property st1 {} msgSetOn "A1" adp1 "D1" dev1
    "on" propOn rfl rfl rfl rfl rfl rfl rfl rfl rfl rfl rfl rfl rfl
    (by decide)

/-- Claim C6: every `PLUGIN_UNLOAD_REQUEST` produces exactly one
`PLUGIN_UNLOAD_RESPONSE`; with `ipcProtocol = "inproc"` the registered
unload hook (if any) runs synchronously before the response send;
otherwise the transport close is scheduled so that, under the
single-threaded timing model of `unloadTimeline`, it occurs no sooner
than 500 ms after the response is sent. -/
theorem C6_unload_sequence (st : ProxyState) (o : Oracle) (msg : Message)
    (h : msg.messageType = MessageType.PLUGIN_UNLOAD_REQUEST) :
    AddonManagerProxy.onMsg st o msg =
      (st, AddonManagerProxy.unloadPlugin st.ipcProtocol st.onUnload) ∧
    countPluginUnloadResponse
      (AddonManagerProxy.unloadPlugin st.ipcProtocol st.onUnload) = 1 ∧
    (st.ipcProtocol = "inproc" →
      AddonManagerProxy.unloadPlugin st.ipcProtocol st.onUnload =
        (if st.onUnload then [Output.call .unloadHook] else []) ++
          [Output.notify .pluginUnloadResponse]) ∧
    (st.ipcProtocol ≠ "inproc" →
      unloadTimeline (AddonManagerProxy.unloadPlugin st.ipcProtocol st.onUnload) =
        [(0, UnloadEvent.response), (500, UnloadEvent.closeTransport)] ∧
      ∀ tr tc : Nat,
        (tr, UnloadEvent.response) ∈
          unloadTimeline (AddonManagerProxy.unloadPlugin st.ipcProtocol st.onUnload) →
        (tc, UnloadEvent.closeTransport) ∈
          unloadTimeline (AddonManagerProxy.unloadPlugin st.ipcProtocol st.onUnload) →
        tr + 500 ≤ tc) := by
  refine ⟨by simp [AddonManagerProxy.onMsg, AddonManagerProxy.onMsgAdapter, AddonManagerProxy.onMsgDevice, AddonManagerProxy.onMsgNotifier, h], ?_, ?_, ?_⟩
  · by_cases hp : st.ipcProtocol = "inproc" <;> by_cases hu : st.onUnload <;>
      simp [AddonManagerProxy.unloadPlugin, hp, hu, countPluginUnloadResponse]
  · intro hp
    by_cases hu : st.onUnload <;> simp [AddonManagerProxy.unloadPlugin, hp, hu]
  · intro hp
    have hb : (st.ipcProtocol == "inproc") = false := by
      simp [hp]
    have htl : unloadTimeline
        (AddonManagerProxy.unloadPlugin st.ipcProtocol st.onUnload) =
        [(0, UnloadEvent.response), (500, UnloadEvent.closeTransport)] := by
      simp [AddonManagerProxy.unloadPlugin, hb, unloadTimeline, syncUnloadEvent]
    refine ⟨htl, ?_⟩
    intro tr tc h1 h2
    rw [htl] at h1 h2
    simp at h1 h2
    omega

def stC6 : ProxyState := { ipcProtocol := "ws" }

def msgUnload : Message := { messageType := MessageType.PLUGIN_UNLOAD_REQUEST }

theorem C6_unload_sequence_witness :
    AddonManagerProxy.onMsg stC6 {} msgUnload =
      (stC6, AddonManagerProxy.unloadPlugin "ws" false) ∧
    countPluginUnloadResponse (AddonManagerProxy.unloadPlugin "ws" false) = 1 ∧
    unloadTimeline (AddonManagerProxy.unloadPlugin "ws" false) =
      [(0, UnloadEvent.response), (500, UnloadEvent.closeTransport)] := by
  have H := C6_unload_sequence stC6 {} msgUnload rfl
  exact ⟨H.1, H.2.1, (H.2.2.2 (by decide)).1⟩

/-- Notifier fixture used for the C7 counterexample. -/
def ntf1 : Notifier :=
  { id := "N1", name := "Notifier One", packageName := "notifier-one"
    outlets := [("O1", { id := "O1" })] }

def stN : ProxyState := { notifiers := [("N1", ntf1)] }

/-- A message whose type matches no case of the routing algorithm but
whose payload carries a notifierId resolving to a registered
notifier. -/
def msgUnknownNotifier : Message :=
  { messageType := 9999, data := { notifierId := some "N1" } }

/-- Claim C7 counterexample: a message with an unhandled messageType
carrying a notifierId that resolves to a registered notifier is dropped
with NO log at all — the notifier-scoped switch has no default case, so
the claimed unrecognized-message log is never emitted on this path. -/
theorem C7_counterexample_notifier_silent_drop :
    (9999 : Nat) ∉ handledTypes ∧
    (mapGet stN.notifiers (some "N1")).isSome = true ∧
    AddonManagerProxy.onMsg stN {} msgUnknownNotifier = (stN, []) ∧
    hasLog (AddonManagerProxy.onMsg stN {} msgUnknownNotifier).2 = false := by
  refine ⟨by decide, by decide, by decide, by decide⟩

/-- Claim C7 (amended): a message whose type matches no handled case is
dropped without reply and without state change; the unrecognized-message
warning is emitted exactly when routing reaches the device-scoped
default case (adapter and device resolved), while a notifierId that
resolves to a registered notifier makes the message be dropped silently
with no output at all. -/
theorem C7_amended_unmatched_dropped (st : ProxyState) (o : Oracle) (msg : Message)
    (h : msg.messageType ∉ handledTypes) :
    (AddonManagerProxy.onMsg st o msg).1 = st ∧
    (∀ out ∈ (AddonManagerProxy.onMsg st o msg).2, out.isNotify = false) ∧
    (∀ nid notifier,
      mapGet st.notifiers msg.data.notifierId = some (nid, notifier) →
      (AddonManagerProxy.onMsg st o msg).2 = []) ∧
    (msg.data.notifierId = none →
      ∀ aid adapter did device,
        mapGet st.adapters msg.data.adapterId = some (aid, adapter) →
        adapter.getDevice msg.data.deviceId = some (did, device) →
        (AddonManagerProxy.onMsg st o msg).2 = [.logWarn .unrecognizedMsg]) := by
  have hne : ∀ c ∈ handledTypes, msg.messageType ≠ c := fun c hc he => h (he.symm ▸ hc)
  have e1 := hne MessageType.PLUGIN_UNLOAD_REQUEST (by decide)
  have e2 := hne MessageType.API_HANDLER_UNLOAD_REQUEST (by decide)
  have e3 := hne MessageType.API_HANDLER_API_REQUEST (by decide)
  have e4 := hne MessageType.NOTIFIER_UNLOAD_REQUEST (by decide)
  have e5 := hne MessageType.OUTLET_NOTIFY_REQUEST (by decide)
  have e6 := hne MessageType.ADAPTER_START_PAIRING_COMMAND (by decide)
  have e7 := hne MessageType.ADAPTER_CANCEL_PAIRING_COMMAND (by decide)
  have e8 := hne MessageType.ADAPTER_UNLOAD_REQUEST (by decide)
  have e9 := hne MessageType.MOCK_ADAPTER_CLEAR_STATE_REQUEST (by decide)
  have e10 := hne MessageType.MOCK_ADAPTER_ADD_DEVICE_REQUEST (by decide)
  have e11 := hne MessageType.MOCK_ADAPTER_REMOVE_DEVICE_REQUEST (by decide)
  have e12 := hne MessageType.MOCK_ADAPTER_PAIR_DEVICE_COMMAND (by decide)
  have e13 := hne MessageType.MOCK_ADAPTER_UNPAIR_DEVICE_COMMAND (by decide)
  have e14 := hne MessageType.DEVICE_SAVED_NOTIFICATION (by decide)
  have e15 := hne MessageType.ADAPTER_REMOVE_DEVICE_REQUEST (by decide)
  have e16 := hne MessageType.ADAPTER_CANCEL_REMOVE_DEVICE_COMMAND (by decide)
  have e17 := hne MessageType.DEVICE_SET_PROPERTY_COMMAND (by decide)
  have e18 := hne MessageType.DEVICE_REQUEST_ACTION_REQUEST (by decide)
  have e19 := hne MessageType.DEVICE_REMOVE_ACTION_REQUEST (by decide)
  have e20 := hne MessageType.DEVICE_SET_PIN_REQUEST (by decide)
  have e21 := hne MessageType.DEVICE_SET_CREDENTIALS_REQUEST (by decide)
  have e22 := hne MessageType.DEVICE_DEBUG_COMMAND (by decide)
  have key : AddonManagerProxy.onMsg st o msg =
      (st,
       if msg.data.notifierId.isSome then
         match mapGet st.notifiers msg.data.notifierId with
         | none => [Output.logError .unrecognizedNotifier]
         | some _ => []
       else
         match mapGet st.adapters msg.data.adapterId with
         | none => [Output.logError .unrecognizedAdapter]
         | some (_, adapter) =>
           match adapter.getDevice msg.data.deviceId with
           | none => [Output.logError .noSuchDevice]
           | some _ => [Output.logWarn .unrecognizedMsg]) := by
    by_cases hs : msg.data.notifierId.isSome
    · rcases hg : mapGet st.notifiers msg.data.notifierId with _ | ⟨nid, notifier⟩ <;>
        simp [AddonManagerProxy.onMsg, AddonManagerProxy.onMsgAdapter, AddonManagerProxy.onMsgDevice, AddonManagerProxy.onMsgNotifier, e1, e2, e3, e4, e5, hs, hg]
    · rcases hga : mapGet st.adapters msg.data.adapterId with _ | ⟨aid, adapter⟩
      · simp [AddonManagerProxy.onMsg, AddonManagerProxy.onMsgAdapter, AddonManagerProxy.onMsgDevice, AddonManagerProxy.onMsgNotifier, e1, e2, e3, hs, hga]
      · rcases hgd : adapter.getDevice msg.data.deviceId with _ | ⟨did, device⟩ <;>
          simp [AddonManagerProxy.onMsg, AddonManagerProxy.onMsgAdapter, AddonManagerProxy.onMsgDevice, AddonManagerProxy.onMsgNotifier, e1, e2, e3, e6, e7, e8, e9, e10, e11,
                e12, e13, e14, e15, e16, e17, e18, e19, e20, e21, e22,
                hs, hga, hgd]
  rw [key]
  refine ⟨rfl, ?_, ?_, ?_⟩
  · by_cases hs : msg.data.notifierId.isSome
    · rcases hg : mapGet st.notifiers msg.data.notifierId with _ | ⟨nid, notifier⟩ <;>
        simp [hs, hg, Output.isNotify]
    · rcases hga : mapGet st.adapters msg.data.adapterId with _ | ⟨aid, adapter⟩
      · simp [hs, hga, Output.isNotify]
      · rcases hgd : adapter.getDevice msg.data.deviceId with _ | ⟨did, device⟩ <;>
          simp [hs, hga, hgd, Output.isNotify]
  · intro nid notifier hg
    have hk := mapGet_key hg
    have hs : msg.data.notifierId.isSome = true := by rw [hk]; rfl
    simp [hs, hg]
  · intro hnone aid adapter did device hga hgd
    have hs : msg.data.notifierId.isSome = false := by rw [hnone]; rfl
    simp [hs, hga, hgd]

theorem C7_amended_unmatched_dropped_witness :
    (AddonManagerProxy.onMsg stN {} msgUnknownNotifier).1 = stN ∧
    (AddonManagerProxy.onMsg stN {} msgUnknownNotifier).2 = [] := by
  have H := C7_amended_unmatched_dropped stN {} msgUnknownNotifier (by decide)
  exact ⟨H.1, H.2.2.1 "N1" ntf1 (by decide)⟩

/-- The device-scoped switch never touches the apiHandlers registry. -/
theorem onMsgDevice_apiHandlers (st : ProxyState) (o : Oracle) (msg : Message)
    (aid : String) (adapter : Adapter) (did : String) (device : Device) :
    (AddonManagerProxy.onMsgDevice st o msg aid adapter did device).1.apiHandlers =
      st.apiHandlers := by
  simp only [AddonManagerProxy.onMsgDevice]
  repeat' first | rfl | split

/-- The device-scoped switch never touches the notifiers registry. -/
theorem onMsgDevice_notifiers (st : ProxyState) (o : Oracle) (msg : Message)
    (aid : String) (adapter : Adapter) (did : String) (device : Device) :
    (AddonManagerProxy.onMsgDevice st o msg aid adapter did device).1.notifiers =
      st.notifiers := by
  simp only [AddonManagerProxy.onMsgDevice]
  repeat' first | rfl | split

/-- Outside the set-property case the device-scoped switch leaves the
adapters registry untouched. -/
theorem onMsgDevice_adapters (st : ProxyState) (o : Oracle) (msg : Message)
    (aid : String) (adapter : Adapter) (did : String) (device : Device)
    (hne : msg.messageType ≠ MessageType.DEVICE_SET_PROPERTY_COMMAND) :
    (AddonManagerProxy.onMsgDevice st o msg aid adapter did device).1.adapters =
      st.adapters := by
  simp only [AddonManagerProxy.onMsgDevice]
  repeat' first
    | rfl
    | exact absurd ‹msg.messageType = MessageType.DEVICE_SET_PROPERTY_COMMAND› hne
    | split

/-- The adapter-scoped switch never touches the apiHandlers registry. -/
theorem onMsgAdapter_apiHandlers (st : ProxyState) (o : Oracle) (msg : Message)
    (aid : String) (adapter : Adapter) :
    (AddonManagerProxy.onMsgAdapter st o msg aid adapter).1.apiHandlers =
      st.apiHandlers := by
  simp only [AddonManagerProxy.onMsgAdapter]
  repeat' first
    | rfl
    | exact onMsgDevice_apiHandlers st o msg aid adapter _ _
    | split

/-- The adapter-scoped switch never touches the notifiers registry. -/
theorem onMsgAdapter_notifiers (st : ProxyState) (o : Oracle) (msg : Message)
    (aid : String) (adapter : Adapter) :
    (AddonManagerProxy.onMsgAdapter st o msg aid adapter).1.notifiers =
      st.notifiers := by
  simp only [AddonManagerProxy.onMsgAdapter]
  repeat' first
    | rfl
    | exact onMsgDevice_notifiers st o msg aid adapter _ _
    | split

/-- Outside the adapter-unload and set-property cases the adapter
section leaves the adapters registry untouched. -/
theorem onMsgAdapter_adapters (st : ProxyState) (o : Oracle) (msg : Message)
    (aid : String) (adapter : Adapter)
    (hne1 : msg.messageType ≠ MessageType.ADAPTER_UNLOAD_REQUEST)
    (hne2 : msg.messageType ≠ MessageType.DEVICE_SET_PROPERTY_COMMAND) :
    (AddonManagerProxy.onMsgAdapter st o msg aid adapter).1.adapters =
      st.adapters := by
  simp only [AddonManagerProxy.onMsgAdapter]
  repeat' first
    | rfl
    | exact absurd ‹msg.messageType = MessageType.ADAPTER_UNLOAD_REQUEST› hne1
    | exact onMsgDevice_adapters st o msg aid adapter _ _ hne2
    | split

/-- The notifier-scoped switch never touches the apiHandlers registry. -/
theorem onMsgNotifier_apiHandlers (st : ProxyState) (o : Oracle) (msg : Message)
    (nid : String) (notifier : Notifier) :
    (AddonManagerProxy.onMsgNotifier st o msg nid notifier).1.apiHandlers =
      st.apiHandlers := by
  simp only [AddonManagerProxy.onMsgNotifier]
  repeat' first | rfl | split

/-- The notifier-scoped switch never touches the adapters registry. -/
theorem onMsgNotifier_adapters (st : ProxyState) (o : Oracle) (msg : Message)
    (nid : String) (notifier : Notifier) :
    (AddonManagerProxy.onMsgNotifier st o msg nid notifier).1.adapters =
      st.adapters := by
  simp only [AddonManagerProxy.onMsgNotifier]
  repeat' first | rfl | split

/-- Outside the notifier-unload case the notifier section leaves the
notifiers registry untouched. -/
theorem onMsgNotifier_notifiers (st : ProxyState) (o : Oracle) (msg : Message)
    (nid : String) (notifier : Notifier)
    (hne : msg.messageType ≠ MessageType.NOTIFIER_UNLOAD_REQUEST) :
    (AddonManagerProxy.onMsgNotifier st o msg nid notifier).1.notifiers =
      st.notifiers := by
  simp only [AddonManagerProxy.onMsgNotifier]
  repeat' first
    | rfl
    | exact absurd ‹msg.messageType = MessageType.NOTIFIER_UNLOAD_REQUEST› hne
    | split

/-- Claim C8: for each of the three registries, the registration call
inserts the entity under its own id (resp. package name) and emits the
corresponding added-notification; an unload request deletes the entry
and answers exactly when the entity's unload promise fulfills — on
rejection the entry remains and no response is sent; and no other
message type removes a registry entry (`DEVICE_SET_PROPERTY_COMMAND`
rewrites an existing adapter entry in place without changing the key
set). -/
theorem C8_registry_lifecycle (st : ProxyState) (o : Oracle)
    (a : Adapter) (n : Notifier) (hd : APIHandler) (msg : Message) :
    (AddonManagerProxy.addAdapter st a =
       ({ st with adapters := mapSet st.adapters a.id a },
        [.notify (.adapterAdded a.id a.name a.packageName)]) ∧
     mapGet (AddonManagerProxy.addAdapter st a).1.adapters (some a.id) =
       some (a.id, a)) ∧
    (AddonManagerProxy.addNotifier st n =
       ({ st with notifiers := mapSet st.notifiers n.id n },
        [.notify (.notifierAdded n.id n.name n.packageName)]) ∧
     mapGet (AddonManagerProxy.addNotifier st n).1.notifiers (some n.id) =
       some (n.id, n)) ∧
    (AddonManagerProxy.addAPIHandler st hd =
       ({ st with apiHandlers := mapSet st.apiHandlers hd.packageName hd },
        [.notify (.apiHandlerAdded hd.packageName)]) ∧
     mapGet (AddonManagerProxy.addAPIHandler st hd).1.apiHandlers
         (some hd.packageName) =
       some (hd.packageName, hd)) ∧
    (msg.messageType = MessageType.ADAPTER_UNLOAD_REQUEST →
      msg.data.notifierId = none →
      ∀ aid adapter,
        mapGet st.adapters msg.data.adapterId = some (aid, adapter) →
        AddonManagerProxy.onMsg st o msg =
          (if o.adapterUnload then
             ({ st with adapters := mapDelete st.adapters aid },
              [.notify (.adapterUnloadResponse adapter.id)])
           else (st, []))) ∧
    (msg.messageType = MessageType.NOTIFIER_UNLOAD_REQUEST →
      ∀ nid notifier,
        mapGet st.notifiers msg.data.notifierId = some (nid, notifier) →
        AddonManagerProxy.onMsg st o msg =
          (if o.notifierUnload then
             ({ st with notifiers := mapDelete st.notifiers nid },
              [.notify (.notifierUnloadResponse notifier.id)])
           else (st, []))) ∧
    (msg.messageType = MessageType.API_HANDLER_UNLOAD_REQUEST →
      ∀ pkg handler,
        mapGet st.apiHandlers msg.data.packageName = some (pkg, handler) →
        AddonManagerProxy.onMsg st o msg =
          (if o.apiHandlerUnload then
             ({ st with apiHandlers := mapDelete st.apiHandlers pkg },
              [.notify (.apiHandlerUnloadResponse pkg)])
           else (st, []))) ∧
    (msg.messageType ≠ MessageType.API_HANDLER_UNLOAD_REQUEST →
      (AddonManagerProxy.onMsg st o msg).1.apiHandlers = st.apiHandlers) ∧
    (msg.messageType ≠ MessageType.NOTIFIER_UNLOAD_REQUEST →
      (AddonManagerProxy.onMsg st o msg).1.notifiers = st.notifiers) ∧
    (msg.messageType ≠ MessageType.ADAPTER_UNLOAD_REQUEST →
      msg.messageType ≠ MessageType.DEVICE_SET_PROPERTY_COMMAND →
      (AddonManagerProxy.onMsg st o msg).1.adapters = st.adapters) ∧
    (msg.messageType = MessageType.DEVICE_SET_PROPERTY_COMMAND →
      ∀ k, (mapGet (AddonManagerProxy.onMsg st o msg).1.adapters (some k)).isSome =
           (mapGet st.adapters (some k)).isSome) := by
  refine ⟨⟨rfl, mapGet_mapSet_self _ _ _⟩,
          ⟨rfl, mapGet_mapSet_self _ _ _⟩,
          ⟨rfl, mapGet_mapSet_self _ _ _⟩, ?_, ?_, ?_, ?_, ?_, ?_, ?_⟩
  · intro hmt hnid aid adapter hga
    cases hor : o.adapterUnload <;>
      simp [AddonManagerProxy.onMsg, AddonManagerProxy.onMsgAdapter, AddonManagerProxy.onMsgDevice, AddonManagerProxy.onMsgNotifier, hmt, hnid, hga, hor]
  · intro hmt nid notifier hg
    have hs : msg.data.notifierId.isSome = true := by rw [mapGet_key hg]; rfl
    cases hor : o.notifierUnload <;>
      simp [AddonManagerProxy.onMsg, AddonManagerProxy.onMsgAdapter, AddonManagerProxy.onMsgDevice, AddonManagerProxy.onMsgNotifier, hmt, hs, hg, hor]
  · intro hmt pkg handler hg
    cases hor : o.apiHandlerUnload <;>
      simp [AddonManagerProxy.onMsg, AddonManagerProxy.onMsgAdapter, AddonManagerProxy.onMsgDevice, AddonManagerProxy.onMsgNotifier, hmt, hg, hor]
  · intro hne
    simp only [AddonManagerProxy.onMsg]
    repeat' first
      | rfl
      | exact absurd ‹msg.messageType = MessageType.API_HANDLER_UNLOAD_REQUEST› hne
      | exact onMsgNotifier_apiHandlers st o msg _ _
      | exact onMsgAdapter_apiHandlers st o msg _ _
      | split
  · intro hne
    simp only [AddonManagerProxy.onMsg]
    repeat' first
      | rfl
      | exact onMsgNotifier_notifiers st o msg _ _ hne
      | exact onMsgAdapter_notifiers st o msg _ _
      | split
  · intro hne1 hne2
    simp only [AddonManagerProxy.onMsg]
    repeat' first
      | rfl
      | exact onMsgNotifier_adapters st o msg _ _
      | exact onMsgAdapter_adapters st o msg _ _ hne1 hne2
      | split
  · intro hmt k
    by_cases hs : msg.data.notifierId.isSome
    · rcases hg : mapGet st.notifiers msg.data.notifierId with _ | ⟨nid, notifier⟩ <;>
        simp [AddonManagerProxy.onMsg, AddonManagerProxy.onMsgAdapter, AddonManagerProxy.onMsgDevice, AddonManagerProxy.onMsgNotifier, hmt, hs, hg]
    · rcases hga : mapGet st.adapters msg.data.adapterId with _ | ⟨aid, adapter⟩
      · simp [AddonManagerProxy.onMsg, AddonManagerProxy.onMsgAdapter, AddonManagerProxy.onMsgDevice, AddonManagerProxy.onMsgNotifier, hmt, hs, hga]
      · have hk : (mapGet st.adapters (some aid)).isSome = true := by
          rw [← mapGet_key hga, hga]; rfl
        rcases hgd : adapter.getDevice msg.data.deviceId with _ | ⟨did, device⟩
        · simp [AddonManagerProxy.onMsg, AddonManagerProxy.onMsgAdapter, AddonManagerProxy.onMsgDevice, AddonManagerProxy.onMsgNotifier, hmt, hs, hga, hgd]
        · rcases hp : device.findProperty msg.data.propertyName with _ | ⟨pname, property⟩
          · simp [AddonManagerProxy.onMsg, AddonManagerProxy.onMsgAdapter, AddonManagerProxy.onMsgDevice, AddonManagerProxy.onMsgNotifier, hmt, hs, hga, hgd, hp]
          · rcases hsv : property.setValue msg.data.propertyValue with e | ⟨p2, outs⟩
            · simp [AddonManagerProxy.onMsg, AddonManagerProxy.onMsgAdapter, AddonManagerProxy.onMsgDevice, AddonManagerProxy.onMsgNotifier, hmt, hs, hga, hgd, hp, hsv]
            · cases hff : p2.isFireAndForget <;>
                (simp [AddonManagerProxy.onMsg, AddonManagerProxy.onMsgAdapter, AddonManagerProxy.onMsgDevice, AddonManagerProxy.onMsgNotifier, hmt, hs, hga, hgd, hp, hsv, hff,
                       writeBackProperty]
                 exact mapGet_mapSet_isSome st.adapters aid _ hk k)

def msgAdapterUnload : Message :=
  { messageType := MessageType.ADAPTER_UNLOAD_REQUEST
    data := { adapterId := some "A1" } }

theorem C8_registry_lifecycle_witness :
    mapGet (AddonManagerProxy.addAdapter {} adp1).1.adapters (some "A1") =
      some ("A1", adp1) ∧
    AddonManagerProxy.onMsg st1 { adapterUnload := false } msgAdapterUnload =
      (st1, []) ∧
    AddonManagerProxy.onMsg st1 {} msgAdapterUnload =
      ({ st1 with adapters := mapDelete st1.adapters "A1" },
       [.notify (.adapterUnloadResponse "A1")]) := by
  refine ⟨?_, ?_, ?_⟩
  · exact (C8_registry_lifecycle {} {} adp1 ntf1 ⟨"pkg"⟩ msgAdapterUnload).1.2
  · have H := (C8_registry_lifecycle st1 { adapterUnload := false } adp1 ntf1
      ⟨"pkg"⟩ msgAdapterUnload).2.2.2.1 rfl rfl "A1" adp1 rfl
    simpa using H
  · have H := (C8_registry_lifecycle st1 {} adp1 ntf1
      ⟨"pkg"⟩ msgAdapterUnload).2.2.2.1 rfl rfl "A1" adp1 rfl
    simpa using H

end GatewayAddon
